import Mathlib

/-
Shallow embedding of `consensus/consensus-types/src/vote.rs` (the `Vote`
message of the Aptos consensus protocol) together with proofs about its
constructors, timeout-augmentation methods and verification protocol.

External collaborator types (`VoteData`, `LedgerInfo`, `Timeout`,
`TwoChainTimeout`, `QuorumCert`, `ValidatorSigner`, `ValidatorVerifier`)
are not part of the source file; they are modelled abstractly at exactly
the interface `vote.rs` consumes: opaque content fields, plus the
operations the source calls.  Cryptographic hashing and signature
verification are modelled as arbitrary parameters / verifier-supplied
boolean functions, so every theorem quantifies over all of their
behaviours.
-/

namespace AptosVote

/-- Model of `common::Author` (an opaque validator identity). -/
abbrev Author := Nat

/-- Model of `Ed25519Signature` (opaque signature bytes). -/
abbrev Signature := Nat

/-- Model of `HashValue` (opaque hash output). -/
abbrev HashValue := Nat

/-- Modelled from the spec: `BlockInfo` exposes `epoch()` and `round()`;
`id` stands for the remaining block metadata. -/
structure BlockInfo where
  epoch : Nat
  round : Nat
  id : Nat
  deriving DecidableEq

/-- Modelled from the spec: `VoteData` is the immutable description of the
proposed block and its justifying parent; `vote.rs` reads `proposed()`. -/
structure VoteData where
  proposed : BlockInfo
  parent : BlockInfo
  deriving DecidableEq

/-- Modelled from the spec: `LedgerInfo` is commit metadata plus a mutable
slot for the consensus data hash, with a setter and an accessor. -/
structure LedgerInfo where
  commit_info : Nat
  consensus_data_hash : HashValue
  deriving DecidableEq

/-- `LedgerInfo::set_consensus_data_hash`: overwrite the hash slot. -/
def LedgerInfo.set_consensus_data_hash (li : LedgerInfo) (h : HashValue) : LedgerInfo :=
  { li with consensus_data_hash := h }

/-- Modelled from the spec: the legacy `Timeout` payload is the pair
`(epoch, round)`, built by `Timeout::new`. -/
structure Timeout where
  epoch : Nat
  round : Nat
  deriving DecidableEq

/-- `Timeout::new(epoch, round)`. -/
def Timeout.new (epoch round : Nat) : Timeout :=
  { epoch := epoch, round := round }

/-- Modelled from the spec: a `QuorumCert` exposes a certified `round`;
`payload` stands for the rest of its content. -/
structure QuorumCert where
  round : Nat
  payload : Nat
  deriving DecidableEq

/-- Modelled from the spec: `TwoChainTimeout` is `(epoch, round, high-QC)`. -/
structure TwoChainTimeout where
  epoch : Nat
  round : Nat
  quorum_cert : QuorumCert
  deriving DecidableEq

/-- `TwoChainTimeout::new(epoch, round, qc)`. -/
def TwoChainTimeout.new (epoch round : Nat) (qc : QuorumCert) : TwoChainTimeout :=
  { epoch := epoch, round := round, quorum_cert := qc }

/-- Modelled from the spec: `TwoChainTimeout::signing_format` is a canonical
injective encoding of the timeout used for signing; it is modelled by the
timeout value itself. -/
def TwoChainTimeout.signing_format (t : TwoChainTimeout) : TwoChainTimeout := t

/-- The payloads `vote.rs` asks the validator verifier to check a signature
over: a `LedgerInfo`, a legacy `Timeout`, or a 2-chain timeout's
`signing_format`.  This mirrors the generic `ValidatorVerifier::verify`
being instantiated at three payload types. -/
inductive Message where
  | ledger (li : LedgerInfo)
  | timeout (t : Timeout)
  | twoChainSF (t : TwoChainTimeout)
  deriving DecidableEq

/-- Modelled from the spec: `ValidatorVerifier` checks a signature by an
author over a payload against the stake table; `verifyTwoChainTimeout`
models the delegated `TwoChainTimeout::verify(validator)` internal check.
Both are arbitrary boolean functions, so theorems quantify over every
possible verifier behaviour. -/
structure ValidatorVerifier where
  verify : Author → Message → Signature → Bool
  verifyTwoChainTimeout : TwoChainTimeout → Bool

/-- Modelled from the spec: `ValidatorSigner` signs a `LedgerInfo` with the
replica's key; an arbitrary function. -/
structure ValidatorSigner where
  sign : LedgerInfo → Signature

/-- The distinct failure categories of `Vote::verify`, one per `ensure!` /
`context` site in the source. -/
inductive VerifyError where
  | hashMismatch
  | conflictingTimeoutAttestations
  | primarySignatureInvalid
  | legacyTimeoutSignatureInvalid
  | timeoutRoundMismatch
  | twoChainTimeoutInvalid
  | twoChainSignatureInvalid
  | voteDataInvalid
  deriving DecidableEq

/-- The `Vote` struct of `vote.rs` (fields in source order). -/
structure Vote where
  vote_data : VoteData
  author : Author
  ledger_info : LedgerInfo
  signature : Signature
  timeout_signature : Option Signature
  two_chain_timeout : Option (TwoChainTimeout × Signature)
  deriving DecidableEq

/-- `Vote::new_with_signature`: the low-level constructor, both timeout
fields absent. -/
def Vote.new_with_signature (vote_data : VoteData) (author : Author)
    (ledger_info : LedgerInfo) (signature : Signature) : Vote :=
  { vote_data := vote_data
    author := author
    ledger_info := ledger_info
    signature := signature
    timeout_signature := none
    two_chain_timeout := none }

/-- `Vote::new`: write `hash(vote_data)` into the placeholder's hash slot,
sign the finalized ledger info, and delegate to `new_with_signature`.
`hashVD` is the (abstractly modelled) `VoteData::hash` function. -/
def Vote.new (hashVD : VoteData → HashValue) (vote_data : VoteData) (author : Author)
    (ledger_info_placeholder : LedgerInfo) (validator_signer : ValidatorSigner) : Vote :=
  let li := ledger_info_placeholder.set_consensus_data_hash (hashVD vote_data)
  let signature := validator_signer.sign li
  Vote.new_with_signature vote_data author li signature

/-- `Vote::add_timeout_signature`.  The `assert!` that no 2-chain timeout is
present is modelled as returning `none` (the process-terminating panic);
`some` carries the updated vote.  A second call with the legacy signature
already set returns the vote unchanged. -/
def Vote.add_timeout_signature (v : Vote) (signature : Signature) : Option Vote :=
  if v.two_chain_timeout.isSome then
    none
  else if v.timeout_signature.isSome then
    some v
  else
    some { v with timeout_signature := some signature }

/-- `Vote::add_2chain_timeout`.  The `assert!` that no legacy timeout
signature is present is modelled as returning `none`; otherwise the
2-chain field is unconditionally overwritten. -/
def Vote.add_2chain_timeout (v : Vote) (timeout : TwoChainTimeout)
    (signature : Signature) : Option Vote :=
  if v.timeout_signature.isSome then
    none
  else
    some { v with two_chain_timeout := some (timeout, signature) }

/-- `Vote::generate_timeout`: re-derive the legacy timeout payload from the
vote's own `VoteData`. -/
def Vote.generate_timeout (v : Vote) : Timeout :=
  Timeout.new v.vote_data.proposed.epoch v.vote_data.proposed.round

/-- `Vote::generate_2chain_timeout`: combine the vote's own `(epoch, round)`
with the supplied quorum certificate. -/
def Vote.generate_2chain_timeout (v : Vote) (qc : QuorumCert) : TwoChainTimeout :=
  TwoChainTimeout.new v.vote_data.proposed.epoch v.vote_data.proposed.round qc

/-- `Vote::epoch`. -/
def Vote.epoch (v : Vote) : Nat :=
  v.vote_data.proposed.epoch

/-- `Vote::is_timeout`: true iff either timeout field is populated. -/
def Vote.is_timeout (v : Vote) : Bool :=
  v.timeout_signature.isSome || v.two_chain_timeout.isSome

/-- `Vote::verify`, check for check in source order.  `hashVD` models
`VoteData::hash`, `vdVerify` models the external `VoteData::verify`. -/
def Vote.verify (hashVD : VoteData → HashValue) (vdVerify : VoteData → Bool)
    (v : Vote) (validator : ValidatorVerifier) : Except VerifyError Unit :=
  if v.ledger_info.consensus_data_hash = hashVD v.vote_data then
    if v.timeout_signature = none ∨ v.two_chain_timeout = none then
      if validator.verify v.author (Message.ledger v.ledger_info) v.signature then
        match
          (match v.timeout_signature with
           | some ts =>
             if validator.verify v.author (Message.timeout v.generate_timeout) ts then
               Except.ok ()
             else
               Except.error VerifyError.legacyTimeoutSignatureInvalid
           | none => Except.ok ()) with
        | Except.error e => Except.error e
        | Except.ok () =>
          match
            (match v.two_chain_timeout with
             | some (timeout, signature) =>
               if (timeout.epoch, timeout.round) = (v.epoch, v.vote_data.proposed.round) then
                 if validator.verifyTwoChainTimeout timeout then
                   if validator.verify v.author
                       (Message.twoChainSF timeout.signing_format) signature then
                     Except.ok ()
                   else
                     Except.error VerifyError.twoChainSignatureInvalid
                 else
                   Except.error VerifyError.twoChainTimeoutInvalid
               else
                 Except.error VerifyError.timeoutRoundMismatch
             | none => Except.ok ()) with
          | Except.error e => Except.error e
          | Except.ok () =>
            if vdVerify v.vote_data then
              Except.ok ()
            else
              Except.error VerifyError.voteDataInvalid
      else
        Except.error VerifyError.primarySignatureInvalid
    else
      Except.error VerifyError.conflictingTimeoutAttestations
  else
    Except.error VerifyError.hashMismatch

/-! Concrete example values, used by the witness theorems. -/

/-- A sample hash function for `VoteData` (the round of the proposed block). -/
def exHash : VoteData → HashValue := fun vd => vd.proposed.round

/-- A vote-data check accepting everything. -/
def trueVD : VoteData → Bool := fun _ => true

/-- A verifier accepting every signature and every 2-chain timeout. -/
def trueVerifier : ValidatorVerifier :=
  { verify := fun _ _ _ => true, verifyTwoChainTimeout := fun _ => true }

/-- Proposed block: epoch 2, round 5. -/
def exBlock : BlockInfo := { epoch := 2, round := 5, id := 1 }

/-- Sample vote data for `exBlock`. -/
def exVoteData : VoteData :=
  { proposed := exBlock, parent := { epoch := 2, round := 4, id := 0 } }

/-- Ledger info whose hash slot matches `exHash exVoteData = 5`. -/
def exLedgerInfo : LedgerInfo := { commit_info := 9, consensus_data_hash := 5 }

/-- A well-formed commit vote for round 5. -/
def exVote : Vote :=
  { vote_data := exVoteData, author := 7, ledger_info := exLedgerInfo,
    signature := 3, timeout_signature := none, two_chain_timeout := none }

/-- A quorum certificate for round 4. -/
def exQC : QuorumCert := { round := 4, payload := 0 }

/-- A second quorum certificate, for round 3. -/
def exQC2 : QuorumCert := { round := 3, payload := 0 }

/-- The 2-chain timeout `exVote.generate_2chain_timeout exQC`. -/
def exTCT : TwoChainTimeout := TwoChainTimeout.new 2 5 exQC

/-- A different 2-chain timeout value. -/
def exTCT2 : TwoChainTimeout := TwoChainTimeout.new 2 5 exQC2

/-- `exVote` with a legacy timeout signature attached. -/
def exVoteTS : Vote := { exVote with timeout_signature := some 21 }

/-- `exVote` with the self-derived 2-chain timeout and a signature attached. -/
def exVoteTCT : Vote :=
  { exVote with two_chain_timeout := some (exVote.generate_2chain_timeout exQC, 11) }

/-- `exVote` with both timeout fields forced set, bypassing the constructors. -/
def exVoteBoth : Vote :=
  { exVote with timeout_signature := some 21, two_chain_timeout := some (exTCT, 11) }

/-- `exVote` with a ledger-info hash slot that does not match `exHash`. -/
def exVoteBadHash : Vote :=
  { exVote with ledger_info := { commit_info := 9, consensus_data_hash := 6 } }

/-! Theorems. -/

/-- C3: `Vote::new` writes `hash(vote_data)` into the placeholder's
consensus-data-hash slot, signs the updated ledger info, and returns a
vote whose fields are exactly (vote_data, author, updated ledger info,
that signature) with both timeout fields absent; it coincides with
`new_with_signature` applied to the updated ledger info and the signer's
signature over it. -/
theorem new_sets_hash_signs_and_delegates (hashVD : VoteData → HashValue)
    (vd : VoteData) (a : Author) (li : LedgerInfo) (signer : ValidatorSigner) :
    Vote.new hashVD vd a li signer =
      Vote.new_with_signature vd a (li.set_consensus_data_hash (hashVD vd))
        (signer.sign (li.set_consensus_data_hash (hashVD vd))) ∧
    Vote.new hashVD vd a li signer =
      { vote_data := vd, author := a,
        ledger_info := li.set_consensus_data_hash (hashVD vd),
        signature := signer.sign (li.set_consensus_data_hash (hashVD vd)),
        timeout_signature := none, two_chain_timeout := none } :=
  ⟨rfl, rfl⟩

/-- C10: `new_with_signature` (hence also `new`, which delegates to it)
always returns a vote with both timeout fields absent, so `is_timeout` is
false on every freshly constructed vote. -/
theorem new_with_signature_not_timeout (vd : VoteData) (a : Author)
    (li : LedgerInfo) (sig : Signature) :
    (Vote.new_with_signature vd a li sig).timeout_signature = none ∧
    (Vote.new_with_signature vd a li sig).two_chain_timeout = none ∧
    (Vote.new_with_signature vd a li sig).is_timeout = false :=
  ⟨rfl, rfl, rfl⟩

/-- C4: with no 2-chain timeout present and the legacy timeout signature
already set, a further `add_timeout_signature` call with any signature is
a no-op returning the vote unchanged (first write wins). -/
theorem add_timeout_signature_first_write_wins (v : Vote) (s s' : Signature)
    (htc : v.two_chain_timeout = none) (hts : v.timeout_signature = some s) :
    v.add_timeout_signature s' = some v := by
  simp [Vote.add_timeout_signature, htc, hts]

/-- C4 witness: the theorem applied at a concrete vote. -/
theorem add_timeout_signature_first_write_wins_inst :
    exVoteTS.add_timeout_signature 22 = some exVoteTS :=
  add_timeout_signature_first_write_wins exVoteTS 21 22 rfl rfl

/-- C5: `add_timeout_signature` hits its assertion failure (modelled as
`none`) exactly when a 2-chain timeout is present, and `add_2chain_timeout`
exactly when a legacy timeout signature is present; under each method's
precondition the panic branch is unreachable, and violating it yields no
vote at all (in particular never one with both attestations). -/
theorem add_methods_panic_characterization (v : Vote) (s : Signature)
    (t : TwoChainTimeout) (sig : Signature) :
    (v.add_timeout_signature s = none ↔ v.two_chain_timeout.isSome = true) ∧
    (v.add_2chain_timeout t sig = none ↔ v.timeout_signature.isSome = true) := by
  constructor
  · unfold Vote.add_timeout_signature
    by_cases h : v.two_chain_timeout.isSome <;>
      by_cases h2 : v.timeout_signature.isSome <;> simp [h, h2]
  · unfold Vote.add_2chain_timeout
    by_cases h : v.timeout_signature.isSome <;> simp [h]

/-- C6: with no legacy timeout signature present, a second
`add_2chain_timeout` call overwrites the first: after two calls the vote
carries exactly the pair supplied last. -/
theorem add_2chain_timeout_last_write_wins (v : Vote)
    (t1 : TwoChainTimeout) (s1 : Signature) (t2 : TwoChainTimeout) (s2 : Signature)
    (hts : v.timeout_signature = none) :
    (v.add_2chain_timeout t1 s1).bind (fun v1 => v1.add_2chain_timeout t2 s2) =
      some { v with two_chain_timeout := some (t2, s2) } := by
  simp [Vote.add_2chain_timeout, hts]

/-- C6 witness: the theorem applied at a concrete vote and two pairs. -/
theorem add_2chain_timeout_last_write_wins_inst :
    (exVote.add_2chain_timeout exTCT 11).bind
        (fun v1 => v1.add_2chain_timeout exTCT2 12) =
      some { exVote with two_chain_timeout := some (exTCT2, 12) } :=
  add_2chain_timeout_last_write_wins exVote exTCT 11 exTCT2 12 rfl

/-- C9: augmentation is append-only: under the respective fatal
precondition, `add_timeout_signature` and `add_2chain_timeout` succeed and
leave vote_data, author, ledger_info and the primary signature unchanged. -/
theorem augmentation_preserves_core_fields (v : Vote) (s : Signature)
    (t : TwoChainTimeout) (sig : Signature) :
    (v.two_chain_timeout = none →
      ∃ v1, v.add_timeout_signature s = some v1 ∧ v1.vote_data = v.vote_data ∧
        v1.author = v.author ∧ v1.ledger_info = v.ledger_info ∧
        v1.signature = v.signature) ∧
    (v.timeout_signature = none →
      ∃ v2, v.add_2chain_timeout t sig = some v2 ∧ v2.vote_data = v.vote_data ∧
        v2.author = v.author ∧ v2.ledger_info = v.ledger_info ∧
        v2.signature = v.signature) := by
  constructor
  · intro htc
    unfold Vote.add_timeout_signature
    by_cases hts : v.timeout_signature.isSome
    · exact ⟨v, by simp [htc, hts], rfl, rfl, rfl, rfl⟩
    · exact ⟨{ v with timeout_signature := some s }, by simp [htc, hts],
        rfl, rfl, rfl, rfl⟩
  · intro hts
    exact ⟨{ v with two_chain_timeout := some (t, sig) },
      by simp [Vote.add_2chain_timeout, hts], rfl, rfl, rfl, rfl⟩

/-- C9 witness: both augmentation methods applied at a concrete vote, with
both preconditions discharged. -/
theorem augmentation_preserves_core_fields_inst :
    (∃ v1, exVote.add_timeout_signature 21 = some v1 ∧
      v1.vote_data = exVote.vote_data ∧ v1.author = exVote.author ∧
      v1.ledger_info = exVote.ledger_info ∧ v1.signature = exVote.signature) ∧
    (∃ v2, exVote.add_2chain_timeout exTCT 11 = some v2 ∧
      v2.vote_data = exVote.vote_data ∧ v2.author = exVote.author ∧
      v2.ledger_info = exVote.ledger_info ∧ v2.signature = exVote.signature) :=
  ⟨(augmentation_preserves_core_fields exVote 21 exTCT 11).1 rfl,
   (augmentation_preserves_core_fields exVote 21 exTCT 11).2 rfl⟩

/-- C1: a vote in which both the legacy timeout signature and the 2-chain
timeout are present is never accepted by `verify`, for every verifier,
hash function and vote-data check; whenever the preceding hash-binding
check passes, the reported error is precisely the
conflicting-timeout-attestations one. -/
theorem verify_rejects_conflicting_timeouts (hashVD : VoteData → HashValue)
    (vdVerify : VoteData → Bool) (v : Vote) (validator : ValidatorVerifier)
    (s : Signature) (p : TwoChainTimeout × Signature)
    (hts : v.timeout_signature = some s) (htc : v.two_chain_timeout = some p) :
    Vote.verify hashVD vdVerify v validator ≠ Except.ok () ∧
      (v.ledger_info.consensus_data_hash = hashVD v.vote_data →
        Vote.verify hashVD vdVerify v validator =
          Except.error VerifyError.conflictingTimeoutAttestations) := by
  have hexcl : ¬ (v.timeout_signature = none ∨ v.two_chain_timeout = none) := by
    rw [hts, htc]; simp
  by_cases hh : v.ledger_info.consensus_data_hash = hashVD v.vote_data
  · constructor
    · unfold Vote.verify
      rw [if_pos hh, if_neg hexcl]
      simp
    · intro _
      unfold Vote.verify
      rw [if_pos hh, if_neg hexcl]
  · constructor
    · unfold Vote.verify
      rw [if_neg hh]
      simp
    · intro h
      exact absurd h hh

/-- C1 witness: the theorem applied at a concrete vote with both timeout
fields set, whose hash binding holds, under an all-accepting verifier. -/
theorem verify_rejects_conflicting_timeouts_inst :
    Vote.verify exHash trueVD exVoteBoth trueVerifier =
      Except.error VerifyError.conflictingTimeoutAttestations :=
  (verify_rejects_conflicting_timeouts exHash trueVD exVoteBoth trueVerifier
    21 (exTCT, 11) rfl rfl).2 rfl

/-- C2: whenever the ledger info's consensus data hash differs from the
hash of the vote data, `verify` fails with the hash-mismatch error,
whatever the verifier and vote-data check are — in particular before any
signature is examined. -/
theorem verify_hash_mismatch_first (hashVD : VoteData → HashValue)
    (vdVerify : VoteData → Bool) (v : Vote) (validator : ValidatorVerifier)
    (h : v.ledger_info.consensus_data_hash ≠ hashVD v.vote_data) :
    Vote.verify hashVD vdVerify v validator =
      Except.error VerifyError.hashMismatch := by
  unfold Vote.verify
  rw [if_neg h]

/-- C2 witness: the theorem applied at a concrete vote whose hash slot was
mutated, under an all-accepting verifier. -/
theorem verify_hash_mismatch_first_inst :
    Vote.verify exHash trueVD exVoteBadHash trueVerifier =
      Except.error VerifyError.hashMismatch :=
  verify_hash_mismatch_first exHash trueVD exVoteBadHash trueVerifier (by decide)

/-- C8: when a legacy timeout signature is present and the three preceding
checks pass, `verify` checks that signature against exactly the `Timeout`
re-derived from the vote's own `VoteData` (the value of
`generate_timeout`), and the remaining outcome is fully determined by that
check plus the vote-data check — no separately carried (epoch, round)
enters. -/
theorem legacy_timeout_checked_against_rederived (hashVD : VoteData → HashValue)
    (vdVerify : VoteData → Bool) (v : Vote) (validator : ValidatorVerifier)
    (ts : Signature)
    (hts : v.timeout_signature = some ts)
    (htc : v.two_chain_timeout = none)
    (hh : v.ledger_info.consensus_data_hash = hashVD v.vote_data)
    (hprim : validator.verify v.author (Message.ledger v.ledger_info)
      v.signature = true) :
    v.generate_timeout =
      Timeout.new v.vote_data.proposed.epoch v.vote_data.proposed.round ∧
    Vote.verify hashVD vdVerify v validator =
      (if validator.verify v.author
            (Message.timeout (Timeout.new v.vote_data.proposed.epoch
              v.vote_data.proposed.round)) ts = true then
        (if vdVerify v.vote_data = true then Except.ok ()
         else Except.error VerifyError.voteDataInvalid)
       else Except.error VerifyError.legacyTimeoutSignatureInvalid) := by
  refine ⟨rfl, ?_⟩
  unfold Vote.verify
  rw [if_pos hh, if_pos (Or.inr htc), if_pos hprim, hts, htc]
  by_cases hb : validator.verify v.author
      (Message.timeout (Timeout.new v.vote_data.proposed.epoch
        v.vote_data.proposed.round)) ts = true
  · simp [Vote.generate_timeout, hb]
  · simp [Vote.generate_timeout, hb]

/-- C8 witness: the theorem applied at a concrete timeout vote under an
all-accepting verifier. -/
theorem legacy_timeout_checked_against_rederived_inst :
    exVoteTS.generate_timeout =
      Timeout.new exVoteTS.vote_data.proposed.epoch
        exVoteTS.vote_data.proposed.round ∧
    Vote.verify exHash trueVD exVoteTS trueVerifier =
      (if trueVerifier.verify exVoteTS.author
            (Message.timeout (Timeout.new exVoteTS.vote_data.proposed.epoch
              exVoteTS.vote_data.proposed.round)) 21 = true then
        (if trueVD exVoteTS.vote_data = true then Except.ok ()
         else Except.error VerifyError.voteDataInvalid)
       else Except.error VerifyError.legacyTimeoutSignatureInvalid) :=
  legacy_timeout_checked_against_rederived exHash trueVD exVoteTS trueVerifier 21
    rfl rfl rfl rfl

/-- C7 counterexample: a vote for round 5 with a 2-chain timeout derived
via `generate_2chain_timeout` from a quorum certificate for round 4,
attached with `add_2chain_timeout`, passes `verify` under an all-accepting
verifier — it does not fail with the timeout-round-mismatch error, because
the derived timeout carries the vote's own (epoch, round). -/
theorem scenario_round_mismatch_refuted :
    exVote.vote_data.proposed.round = 5 ∧ exQC.round = 4 ∧
    exVote.add_2chain_timeout (exVote.generate_2chain_timeout exQC) 11 =
      some exVoteTCT ∧
    Vote.verify exHash trueVD exVoteTCT trueVerifier = Except.ok () :=
  ⟨rfl, rfl, rfl, rfl⟩

/-- C7 (amended): a 2-chain timeout derived by `generate_2chain_timeout`
always carries the vote's own (epoch, round) — regardless of the supplied
quorum certificate's round — so after attaching it with
`add_2chain_timeout`, `verify` can never fail with the
timeout-round-mismatch error. -/
theorem generate_2chain_never_round_mismatch (hashVD : VoteData → HashValue)
    (vdVerify : VoteData → Bool) (v : Vote) (qc : QuorumCert) (sig : Signature)
    (validator : ValidatorVerifier) (v' : Vote)
    (h : v.add_2chain_timeout (v.generate_2chain_timeout qc) sig = some v') :
    (v.generate_2chain_timeout qc).epoch = v.vote_data.proposed.epoch ∧
    (v.generate_2chain_timeout qc).round = v.vote_data.proposed.round ∧
    Vote.verify hashVD vdVerify v' validator ≠
      Except.error VerifyError.timeoutRoundMismatch := by
  refine ⟨rfl, rfl, ?_⟩
  have hts : v.timeout_signature = none := by
    by_contra hne
    have hsome : v.timeout_signature.isSome := Option.ne_none_iff_isSome.mp hne
    simp [Vote.add_2chain_timeout, hsome] at h
  have hv' : v' =
      { v with two_chain_timeout := some (v.generate_2chain_timeout qc, sig) } := by
    simp [Vote.add_2chain_timeout, hts] at h
    rw [← h, hts]
  subst hv'
  intro hcontra
  by_cases c1 : v.ledger_info.consensus_data_hash = hashVD v.vote_data <;>
  by_cases c3 : validator.verify v.author (Message.ledger v.ledger_info)
      v.signature = true <;>
  by_cases c4 : validator.verifyTwoChainTimeout
      (v.generate_2chain_timeout qc) = true <;>
  by_cases c5 : validator.verify v.author
      (Message.twoChainSF (v.generate_2chain_timeout qc).signing_format)
      sig = true <;>
  by_cases c6 : vdVerify v.vote_data = true <;>
  simp_all [Vote.verify, Vote.epoch, Vote.generate_2chain_timeout,
    TwoChainTimeout.new, TwoChainTimeout.signing_format]

/-- C7 (amended) witness: the theorem applied at the concrete round-5 vote
and round-4 quorum certificate. -/
theorem generate_2chain_never_round_mismatch_inst :
    (exVote.generate_2chain_timeout exQC).epoch =
      exVote.vote_data.proposed.epoch ∧
    (exVote.generate_2chain_timeout exQC).round =
      exVote.vote_data.proposed.round ∧
    Vote.verify exHash trueVD exVoteTCT trueVerifier ≠
      Except.error VerifyError.timeoutRoundMismatch :=
  generate_2chain_never_round_mismatch exHash trueVD exVote exQC 11
    trueVerifier exVoteTCT rfl

end AptosVote
